import Mathlib

/-!
Verification development for the prime-editing quantification/visualisation
pipeline (`workflow_tools/quantification_analysis.py` and
`visualisation_tools/heatmap.py`).

The Python code is shallowly embedded: pure fragments become Lean functions,
`re.match` against the six anchored patterns is embedded by a small
backtracking matcher over token lists (greedy quantifiers with
rightmost-first backtracking, exactly Python's strategy), numpy true
division of non-negative integers is embedded by a value domain with
explicit `nan`/`inf` results, and Python statements that can raise
(`int(...)`, tuple unpacking of the wrong arity) return `Except String`.
-/

namespace PrimeEdit

/-- `\d` for ASCII inputs. -/
def isDigitC (c : Char) : Bool := c.isDigit

/-- `[a-zA-Z]` for ASCII inputs. -/
def isAlphaC (c : Char) : Bool := c.isAlpha

/-- `\w` (ASCII fragment: the batch names in this development are ASCII). -/
def isWordC (c : Char) : Bool := c.isAlphanum || c = '_'

/-- `[a-zA-Z_]`. -/
def isAlphaUnd (c : Char) : Bool := c.isAlpha || c = '_'

/-- `[R/r]`: the character class written in the source patterns (it contains
the three characters `R`, `/`, `r`). -/
def isRSlashR (c : Char) : Bool := c = 'R' || c = '/' || c = 'r'

/-- Tokens of the six source regular expressions.  Every quantifier in the
source patterns is a `+` over a one-character class, and the only capturing
groups are `(\d+)`, `([a-zA-Z]+)` and `(PE\w+)`, so this token language
covers them exactly. -/
inductive Tok
  | lit (l : List Char)                    -- literal characters
  | one (p : Char → Bool)                  -- single character class
  | plus (p : Char → Bool) (cap : Bool)    -- class `+`, possibly capturing
  | grpPE                                  -- the capturing group `(PE\w+)`
  | eos                                    -- `$`
deriving Inhabited

/-- Length of the maximal run of characters satisfying `p` at the front. -/
def runLen (p : Char → Bool) : List Char → Nat
  | [] => 0
  | c :: cs => if p c then runLen p cs + 1 else 0

/-- Greedy search for a `+` quantifier: try taking `k` characters, longest
first, and accept the first `k ≥ 1` for which the continuation `next`
matches the rest.  Returns the chosen `k` with the continuation's captures.
This is Python's backtracking order for a greedy quantifier.  (Written
with a bare `Nat.rec` so that concrete runs reduce cheaply in the kernel.) -/
def tryLens (next : List Char → Option (List (List Char))) (cs : List Char)
    (n : Nat) : Option (Nat × List (List Char)) :=
  Nat.rec (motive := fun _ => Option (Nat × List (List Char)))
    none
    (fun k ih =>
      match next (cs.drop (k + 1)) with
      | some caps => some (k + 1, caps)
      | none => ih)
    n

/-- One step of the backtracking matcher; `rec` is the matcher for the
remaining fuel.  The matcher is anchored at the start of the input as
`re.match` is; when the token list is exhausted the rest of the input is
ignored (the source patterns that must reach the end carry an explicit
`eos`).  Captured groups are returned leftmost first. -/
def mtchStep (rec : List Tok → List Char → Option (List (List Char))) :
    List Tok → List Char → Option (List (List Char))
  | [], _ => some []
  | Tok.eos :: ts, cs => if cs.isEmpty then rec ts cs else none
  | Tok.lit l :: ts, cs =>
    if l.isPrefixOf cs then rec ts (cs.drop l.length) else none
  | Tok.one p :: ts, cs =>
    match cs with
    | [] => none
    | c :: cs' => if p c then rec ts cs' else none
  | Tok.plus p cap :: ts, cs =>
    match tryLens (fun rest => rec ts rest) cs (runLen p cs) with
    | some (k, caps) => some (if cap then cs.take k :: caps else caps)
    | none => none
  | Tok.grpPE :: ts, cs =>
    if cs.take 2 = ['P', 'E'] then
      let rest := cs.drop 2
      match tryLens (fun r => rec ts r) rest (runLen isWordC rest) with
      | some (k, caps) => some ((['P', 'E'] ++ rest.take k) :: caps)
      | none => none
    else none

/-- Fuel-indexed backtracking matcher.  Each step consumes one token, so
fuel `toks.length + 1` (as supplied by `reMatch`) can never run out. -/
def mtch (f : Nat) : List Tok → List Char → Option (List (List Char)) :=
  Nat.rec (motive := fun _ => List Tok → List Char → Option (List (List Char)))
    (fun _ _ => none)
    (fun _ ih => mtchStep ih)
    f

/-- `re.match(pattern, s)`, returning the captured groups in order. -/
def reMatch (ts : List Tok) (s : String) : Option (List String) :=
  (mtch (ts.length + 1) ts s.data).map (List.map List.asString)

/-- `r'[a-zA-Z]+(PE\w+)_P(\d+)_R(\d+)_[R/r]ep(\d+)'` -/
def pattern1 : List Tok :=
  [.plus isAlphaC false, .grpPE, .lit ['_', 'P'], .plus isDigitC true,
   .lit ['_', 'R'], .plus isDigitC true, .lit ['_'], .one isRSlashR,
   .lit ['e', 'p'], .plus isDigitC true]

/-- `r'[a-zA-Z]+(PE\w+)_R(\d+)_P(\d+)_[R/r]ep(\d+)'` -/
def pattern2 : List Tok :=
  [.plus isAlphaC false, .grpPE, .lit ['_', 'R'], .plus isDigitC true,
   .lit ['_', 'P'], .plus isDigitC true, .lit ['_'], .one isRSlashR,
   .lit ['e', 'p'], .plus isDigitC true]

/-- `r'[a-zA-Z]+_P(\d+)_R(\d+)_[R/r]ep(\d+)'` -/
def pattern3 : List Tok :=
  [.plus isAlphaC false, .lit ['_', 'P'], .plus isDigitC true,
   .lit ['_', 'R'], .plus isDigitC true, .lit ['_'], .one isRSlashR,
   .lit ['e', 'p'], .plus isDigitC true]

/-- `r'[a-zA-Z]+_R(\d+)_P(\d+)_[R/r]ep(\d+)'` -/
def pattern4 : List Tok :=
  [.plus isAlphaC false, .lit ['_', 'R'], .plus isDigitC true,
   .lit ['_', 'P'], .plus isDigitC true, .lit ['_'], .one isRSlashR,
   .lit ['e', 'p'], .plus isDigitC true]

/-- `r'[a-zA-Z_]+(PE\w+)_P(\d+)R(\d+)_([a-zA-Z]+)$'` -/
def pattern_drug : List Tok :=
  [.plus isAlphaUnd false, .grpPE, .lit ['_', 'P'], .plus isDigitC true,
   .lit ['R'], .plus isDigitC true, .lit ['_'], .plus isAlphaC true, .eos]

/-- `r'[a-zA-Z_]+(PE\w+)_P(\d+)R(\d+)_([a-zA-Z]+)_[R/r]ep(\d+)'` -/
def pattern_drug_rep : List Tok :=
  [.plus isAlphaUnd false, .grpPE, .lit ['_', 'P'], .plus isDigitC true,
   .lit ['R'], .plus isDigitC true, .lit ['_'], .plus isAlphaC true,
   .lit ['_'], .one isRSlashR, .lit ['e', 'p'], .plus isDigitC true]

/-- Python's `str.lower()` for the ASCII strings handled here. -/
def lower (s : String) : String := ⟨s.data.map Char.toLower⟩

/-- Value of a decimal digit string. -/
def digitsToNat (l : List Char) : Nat :=
  l.foldl (fun a c => a * 10 + (c.toNat - 48)) 0

/-- Python's `int(s)` restricted to the strings produced by the capture
groups above: succeeds exactly on non-empty all-digit strings, raises
`ValueError` otherwise (a `([a-zA-Z]+)` capture always raises). -/
def pyInt (s : String) : Except String Nat :=
  if s ≠ "" ∧ s.data.all isDigitC then .ok (digitsToNat s.data)
  else .error ("ValueError: invalid literal for int() with base 10: " ++ s)

/-- The 5-tuple returned by `extract_batch_info`.  A parse failure is the
all-`none` tuple, exactly as in the source. -/
structure BatchInfo where
  prime_editor : Option String
  pbs : Option Nat
  rtt : Option Nat
  replicate : Option Nat
  drug_code : Option String
deriving DecidableEq, Repr

/-- The `if match1:` branch (lines 39-44). -/
def branch1 (batch_name : String) : Option (Except String BatchInfo) :=
  match reMatch pattern1 batch_name with
  | some (pe :: p :: r :: rep :: _) => some (do
      let pbs ← pyInt p
      let rtt ← pyInt r
      let replicate ← pyInt rep
      pure ⟨some pe, some pbs, some rtt, some replicate, none⟩)
  | _ => none

/-- The `elif match2:` branch (lines 45-50): group 2 is `rtt`, group 3 `pbs`. -/
def branch2 (batch_name : String) : Option (Except String BatchInfo) :=
  match reMatch pattern2 batch_name with
  | some (pe :: r :: p :: rep :: _) => some (do
      let rtt ← pyInt r
      let pbs ← pyInt p
      let replicate ← pyInt rep
      pure ⟨some pe, some pbs, some rtt, some replicate, none⟩)
  | _ => none

/-- The `elif match3:` branch (lines 51-55). -/
def branch3 (batch_name : String) : Option (Except String BatchInfo) :=
  match reMatch pattern3 batch_name with
  | some (p :: r :: rep :: _) => some (do
      let pbs ← pyInt p
      let rtt ← pyInt r
      let replicate ← pyInt rep
      pure ⟨none, some pbs, some rtt, some replicate, none⟩)
  | _ => none

/-- The `elif match4:` branch (lines 56-60): group 1 is `rtt`, group 2 `pbs`. -/
def branch4 (batch_name : String) : Option (Except String BatchInfo) :=
  match reMatch pattern4 batch_name with
  | some (r :: p :: rep :: _) => some (do
      let rtt ← pyInt r
      let pbs ← pyInt p
      let replicate ← pyInt rep
      pure ⟨none, some pbs, some rtt, some replicate, none⟩)
  | _ => none

/-- The `elif match_drug_rep:` branch (lines 61-67).  Source line 65 runs
`replicate = int(match_drug_rep.group(4))`, but group 4 is the
`([a-zA-Z]+)` drug capture (the replicate digits are group 5), so this
branch always raises `ValueError`; the embedding preserves the slip
(`drug_code = group(5)` on line 66 is likewise the digit capture). -/
def branch_drug_rep (batch_name : String) : Option (Except String BatchInfo) :=
  match reMatch pattern_drug_rep batch_name with
  | some (pe :: p :: r :: drug :: rep :: _) => some (do
      let pbs ← pyInt p
      let rtt ← pyInt r
      let replicate ← pyInt drug
      pure ⟨some pe, some pbs, some rtt, some replicate, some rep⟩)
  | _ => none

/-- The `elif match_drug:` branch (lines 68-74): replicate defaults to 1. -/
def branch_drug (batch_name : String) : Option (Except String BatchInfo) :=
  match reMatch pattern_drug batch_name with
  | some (pe :: p :: r :: drug :: _) => some (do
      let pbs ← pyInt p
      let rtt ← pyInt r
      pure ⟨some pe, some pbs, some rtt, some 1, some drug⟩)
  | _ => none

/-- `extract_batch_info` (quantification_analysis.py lines 15-77): all six
`re.match` calls are evaluated (lines 32-37) and the `if`/`elif` chain
takes the first that matched, in the order `match1, match2, match3,
match4, match_drug_rep, match_drug`; if none matched, the all-`none`
failure tuple is returned (line 77). -/
def extract_batch_info (batch_name : String) : Except String BatchInfo :=
  ((branch1 batch_name).orElse fun _ =>
    (branch2 batch_name).orElse fun _ =>
      (branch3 batch_name).orElse fun _ =>
        (branch4 batch_name).orElse fun _ =>
          (branch_drug_rep batch_name).orElse fun _ =>
            branch_drug batch_name).getD
    (.ok ⟨none, none, none, none, none⟩)

instance {e a : Type} [DecidableEq e] [DecidableEq a] : DecidableEq (Except e a) :=
  fun x y =>
    match x, y with
    | .ok x, .ok y => if h : x = y then .isTrue (by rw [h]) else .isFalse (by simp [h])
    | .error x, .error y => if h : x = y then .isTrue (by rw [h]) else .isFalse (by simp [h])
    | .ok _, .error _ => .isFalse (by simp)
    | .error _, .ok _ => .isFalse (by simp)

/-!
## Metric aggregation (`process_data`, quantification_analysis.py lines 79-172)

The read counts are pandas/numpy integers, so `x / total` is numpy true
division: for non-negative integer operands it yields a finite float when
`total != 0`, `nan` for `0 / 0` and `inf` for `x / 0` with `x > 0` (a
RuntimeWarning, not an exception).  Finite values are embedded as exact
rationals. -/

/-- Result domain of numpy true division of non-negative integers. -/
inductive NpVal
  | fin (q : ℚ)
  | nan
  | inf
deriving DecidableEq, Repr

/-- numpy true division `a / b` of non-negative integers. -/
def npDivNat (a b : ℕ) : NpVal :=
  if b = 0 then (if a = 0 then .nan else .inf) else .fin ((a : ℚ) / (b : ℚ))

/-- `v * 100` on the numpy value domain. -/
def npMul100 : NpVal → NpVal
  | .fin q => .fin (q * 100)
  | .nan => .nan
  | .inf => .inf

/-- One row of the input measurement table (one amplicon category of one
batch): the columns consumed by `process_data`. -/
structure Row where
  amplicon : String
  unmodified : ℕ
  modified : ℕ
  discarded : ℕ
deriving DecidableEq, Repr

/-- Lines 99-102: per-column sums over the batch rows, then their sum. -/
def totalReads (rows : List Row) : ℕ :=
  (rows.map (·.unmodified)).sum + (rows.map (·.modified)).sum +
    (rows.map (·.discarded)).sum

/-- The three percentages computed for one batch. -/
structure BatchMetrics where
  correct_edits : NpVal
  incorrect_edits : NpVal
  scaffold_incorporated : NpVal
deriving DecidableEq, Repr

/-- Lines 94-119 of `process_data`, for one batch's rows: skip unless
exactly 3 rows; compute the total; skip unless exactly one
`'Prime-edited'` row and exactly one `'Scaffold-incorporated'` row; then
`correct_edits = (pe.Unmodified / total) * 100`,
`incorrect_edits = (pe.Modified / total) * 100`,
`scaffold_incorporated = (scaffold.Modified / total) * 100`.
There is no zero-total guard in the source; the numpy division semantics
of `npDivNat` apply. -/
def computeMetrics (rows : List Row) : Option BatchMetrics :=
  if rows.length ≠ 3 then none
  else
    let total := totalReads rows
    match rows.filter (fun r => r.amplicon == "Prime-edited") with
    | [pe] =>
      match rows.filter (fun r => r.amplicon == "Scaffold-incorporated") with
      | [sc] =>
        some ⟨npMul100 (npDivNat pe.unmodified total),
              npMul100 (npDivNat pe.modified total),
              npMul100 (npDivNat sc.modified total)⟩
      | _ => none
    | _ => none

/-- The per-batch record built by `process_data` before the prime editor is
attached (the dict of lines 134-142 / 144-153 minus `prime_editor`). -/
structure PartialBatch where
  pbs : ℕ
  rtt : ℕ
  replicate : ℕ
  correct_edits : NpVal
  incorrect_edits : NpVal
  scaffold_incorporated : NpVal
  drug_code : Option String
deriving DecidableEq, Repr

/-- The record for a batch with its prime editor resolved. -/
structure BatchData where
  prime_editor : String
  pbs : ℕ
  rtt : ℕ
  replicate : ℕ
  correct_edits : NpVal
  incorrect_edits : NpVal
  scaffold_incorporated : NpVal
  drug_code : Option String
deriving DecidableEq, Repr

/-- Attach a resolved prime editor to a partial batch record. -/
def withEditor (pe : String) (pb : PartialBatch) : BatchData :=
  ⟨pe, pb.pbs, pb.rtt, pb.replicate, pb.correct_edits, pb.incorrect_edits,
   pb.scaffold_incorporated, pb.drug_code⟩

/-- The loop body of lines 91-153 for one batch: `none` means the batch was
skipped (`continue`), `.error` that an exception escaped (only
`extract_batch_info`'s `int()` can raise here).  The returned
`Option String` is the parsed prime editor (`none` puts the batch into
`missing_pe_batches`).  Lines 128-130 normalize a drug code equal to
`'ctrl'` case-insensitively to `None`. -/
def stepBatch (b : String × List Row) :
    Except String (Option (Option String × PartialBatch)) :=
  match computeMetrics b.2 with
  | none => .ok none
  | some m => do
    let info ← extract_batch_info b.1
    match info.pbs, info.rtt, info.replicate with
    | some pbs, some rtt, some rep =>
      let dc := match info.drug_code with
        | some s => if lower s = "ctrl" then none else some s
        | none => none
      pure (some (info.prime_editor, ⟨pbs, rtt, rep, m.correct_edits,
        m.incorrect_edits, m.scaffold_incorporated, dc⟩))
    | _, _, _ => pure none

/-- The whole `for batch_name in unique_batches` loop: batches are
processed in order, skipped batches dropped, and an exception aborts the
whole call (it propagates out of `process_data`). -/
def stepAll :
    List (String × List Row) →
      Except String (List (String × Option String × PartialBatch))
  | [] => .ok []
  | b :: bs => do
    let r ← stepBatch b
    let rest ← stepAll bs
    match r with
    | none => pure rest
    | some x => pure ((b.1, x) :: rest)

/-- Lines 155-172: batches whose prime editor parsed go straight into the
result dict; the others are resolved by the operator, either uniformly
with the single `response` string or, if the response is `'different'`
case-insensitively, by one `perBatch` prompt per batch.  Every
unresolved batch receives the operator's string verbatim (there is no
exclusion path) and is appended after the complete ones, matching dict
insertion order for distinct batch names. -/
def resolveMissing (response : String) (perBatch : String → String)
    (stepped : List (String × Option String × PartialBatch)) :
    List (String × BatchData) :=
  let complete := stepped.filterMap fun x =>
    match x.2.1 with
    | some pe => some (x.1, withEditor pe x.2.2)
    | none => none
  let missing := stepped.filterMap fun x =>
    match x.2.1 with
    | some _ => none
    | none => some (x.1, x.2.2)
  let resolved :=
    if lower response = "different" then
      missing.map fun x => (x.1, withEditor (perBatch x.1) x.2)
    else
      missing.map fun x => (x.1, withEditor response x.2)
  complete ++ resolved

/-- `process_data` (lines 79-172), on already-grouped batches (the pandas
grouping by the `Batch` column is upstream I/O): returns the final
batch-name → record mapping, or the exception that aborted it. -/
def process_data (batches : List (String × List Row)) (response : String)
    (perBatch : String → String) : Except String (List (String × BatchData)) := do
  let stepped ← stepAll batches
  pure (resolveMissing response perBatch stepped)

/-- The reserved "no treatment" drug row inserted by `setup_database`
(line 201) and returned by `get_or_create_drug` for a `None` code. -/
def noneDrugId : String := "00000000-0000-0000-0000-000000000000"

/-- `get_or_create_drug` (quantification_analysis.py lines 265-316): a
`None` drug code deterministically returns the reserved "no treatment"
id (lines 267-269) with no interaction; any other code goes through the
interactive selection/creation dialogue, embedded as an
operator-supplied choice function. -/
def get_or_create_drug (operatorSelect : String → String) :
    Option String → String
  | none => noneDrugId
  | some code => operatorSelect code

/-!
## Cross-run normalization and aggregation
(`get_experiment_data`, heatmap.py lines 55-224, and the matrix
materialization of `create_heatmaps`, lines 250-262)

A fetched `data_points` row is a tuple of the eight selected columns
(lines 129-147).  The two normalization loops (lines 158 and 182) unpack
such a row into only seven targets, which in Python raises
`ValueError: too many values to unpack`; the embedding makes unpacking
explicit on a list-of-values representation of the row. -/

/-- A Python value in a fetched sqlite row. -/
inductive PyVal
  | vStr (s : String)
  | vNum (q : ℚ)
  | vNat (n : ℕ)
deriving DecidableEq, Repr

/-- One `data_points` record: the eight columns selected at lines 129-147
(`drug_id` already passed through `COALESCE`). -/
structure DataPoint where
  experiment_entry_id : String
  correct_edits : ℚ
  incorrect_edits : ℚ
  scaffold_incorporated : ℚ
  prime_editor : String
  replicate : ℕ
  run_id : String
  drug_id : String
deriving DecidableEq, Repr

/-- The fetched row for a data point: a tuple with exactly eight
elements, in the column order of the SELECT. -/
def rowOf (d : DataPoint) : List PyVal :=
  [.vStr d.experiment_entry_id, .vNum d.correct_edits, .vNum d.incorrect_edits,
   .vNum d.scaffold_incorporated, .vStr d.prime_editor, .vNat d.replicate,
   .vStr d.run_id, .vStr d.drug_id]

/-- Projection used after a successful unpack (the unpacked positions hold
strings for every row produced by `rowOf`). -/
def pyStr : PyVal → String
  | .vStr s => s
  | _ => ""

/-- Projection for numeric columns. -/
def pyNum : PyVal → ℚ
  | .vNum q => q
  | _ => 0

/-- The message of the exception raised by unpacking an 8-tuple into 7
target variables. -/
def errUnpack7 : String := "ValueError: too many values to unpack (expected 7)"

/-- `defaultdict(set)` update: add `run` to the run-set of coordinate
`pr`, keeping insertion order. -/
def addRun : List ((ℕ × ℕ) × List String) → (ℕ × ℕ) → String →
    List ((ℕ × ℕ) × List String)
  | [], pr, run => [(pr, [run])]
  | (k, rs) :: rest, pr, run =>
    if k = pr then (k, if run ∈ rs then rs else rs ++ [run]) :: rest
    else (k, rs) :: addRun rest pr run

/-- Lines 157-161: `for entry_id, _, _, _, _, _, run_id in data_points:`.
Each iteration unpacks one 8-column row into seven targets; a row of any
other arity raises, so the first row of a non-empty result set raises
`ValueError` and the loop never completes. -/
def pbs_rtt_in_runs (entries : List (String × ℕ × ℕ))
    (rows : List (List PyVal)) :
    Except String (List ((ℕ × ℕ) × List String)) :=
  rows.foldlM
    (fun acc row =>
      match row with
      | [e, _, _, _, _, _, r] =>
        match entries.lookup (pyStr e) with
        | some pr => .ok (addRun acc pr (pyStr r))
        | none => .ok acc
      | _ => .error errUnpack7)
    []

/-- Set equality of two run-id collections (`run_set == all_runs`). -/
def sameSet (xs ys : List String) : Bool :=
  xs.all (fun x => ys.contains x) && ys.all (fun y => xs.contains y)

/-- `np.mean` of a list of (exact) floats. -/
def mean (l : List ℚ) : ℚ := l.sum / (l.length : ℚ)

/-- Lines 179-190: per-run reference values at the reference coordinate and
their means.  The inner loop (line 182) again unpacks each 8-column row
into seven targets, so it raises on the first row; runs without reference
values are left out of the factor map (line 189). -/
def run_factors (entries : List (String × ℕ × ℕ)) (rows : List (List PyVal))
    (runs : List String) (npos : ℕ × ℕ) :
    Except String (List (String × ℚ)) :=
  runs.foldlM
    (fun acc run_id => do
      let refs ← rows.foldlM
        (fun (a : List ℚ) row =>
          match row with
          | [e, c, _, _, _, _, r] =>
            if pyStr r = run_id then
              match entries.lookup (pyStr e) with
              | some pr => if pr = npos then .ok (a ++ [pyNum c]) else .ok a
              | none => .ok a
            else .ok a
          | _ => .error errUnpack7)
        []
      if refs.isEmpty then pure acc else pure (acc ++ [(run_id, mean refs)]))
    []

/-- Lines 202-204: the factor a data point's values are multiplied by. -/
def normFactor (normalize : Bool) (factors : List (String × ℚ)) (global : ℚ)
    (run_id : String) : ℚ :=
  if normalize then
    match factors.lookup run_id with
    | some f => if f > 0 then global / f else 1
    | none => 1
  else 1

/-- `drugs.get(drug_id, "Unknown")` (line 207). -/
def drugNameOf (drugs : List (String × String)) (d : DataPoint) : String :=
  ((drugs.lookup d.drug_id).getD "Unknown")

/-- Which of a data point's three values a metric key selects
(lines 208-210 append one value per metric). -/
def metricValue (d : DataPoint) (metric : String) : Option ℚ :=
  if metric = "correct_edits" then some d.correct_edits
  else if metric = "incorrect_edits" then some d.incorrect_edits
  else if metric = "scaffold_incorporated" then some d.scaffold_incorporated
  else none

/-- The list `heatmap_data[(editor, drug_name, metric)][(pbs, rtt)]` after
the loop of lines 197-210: the scaled values of every matching data point
whose entry id resolves, in data-point order. -/
def heatmapVals (entries : List (String × ℕ × ℕ)) (drugs : List (String × String))
    (factor : String → ℚ) (dps : List DataPoint)
    (key : String × String × String) (pos : ℕ × ℕ) : List ℚ :=
  dps.filterMap fun d =>
    match entries.lookup d.experiment_entry_id with
    | some pr =>
      if pr = pos ∧ d.prime_editor = key.1 ∧ drugNameOf drugs d = key.2.1 then
        (metricValue d key.2.2).map (fun v => v * factor d.run_id)
      else none
    | none => none

/-- The key set of the dict `heatmap_data[key]`
(= `list(data[key].keys())` at line 251), without duplicates. -/
def keyPositions (entries : List (String × ℕ × ℕ)) (drugs : List (String × String))
    (dps : List DataPoint) (key : String × String × String) : List (ℕ × ℕ) :=
  (dps.filterMap fun d =>
    match entries.lookup d.experiment_entry_id with
    | some pr =>
      if d.prime_editor = key.1 ∧ drugNameOf drugs d = key.2.1 ∧
          (metricValue d key.2.2).isSome then
        some pr
      else none
    | none => none).dedup

/-- `averaged_data[key][pos]` (lines 213-215): `np.mean` of the replicate
list, or absent when the coordinate never received a value. -/
def avgAt (entries : List (String × ℕ × ℕ)) (drugs : List (String × String))
    (factor : String → ℚ) (dps : List DataPoint)
    (key : String × String × String) (pos : ℕ × ℕ) : Option ℚ :=
  let vs := heatmapVals entries drugs factor dps key pos
  if vs.isEmpty then none else some (mean vs)

/-- The distinct `(editor, drug_name, metric)` keys of `heatmap_data`, in
first-appearance order (each resolving data point feeds three keys). -/
def keysOf (entries : List (String × ℕ × ℕ)) (drugs : List (String × String))
    (dps : List DataPoint) : List (String × String × String) :=
  (dps.flatMap fun d =>
    match entries.lookup d.experiment_entry_id with
    | some _ =>
      [(d.prime_editor, drugNameOf drugs d, "correct_edits"),
       (d.prime_editor, drugNameOf drugs d, "incorrect_edits"),
       (d.prime_editor, drugNameOf drugs d, "scaffold_incorporated")]
    | none => []).dedup

/-- The materialized `averaged_data` dict (lines 212-215). -/
def averaged_data (entries : List (String × ℕ × ℕ)) (drugs : List (String × String))
    (factor : String → ℚ) (dps : List DataPoint) :
    List ((String × String × String) × List ((ℕ × ℕ) × ℚ)) :=
  (keysOf entries drugs dps).map fun k =>
    (k, (keyPositions entries drugs dps k).map fun pos =>
      (pos, mean (heatmapVals entries drugs factor dps k pos)))

/-- `get_experiment_data` (heatmap.py lines 55-224) from the fetched
`entries`, selected run ids, `drugs` and `data_points` on: the
normalization prepass of lines 154-174 (reference-coordinate search over
7-target unpacking), the per-run factors and global factor of lines
177-194, and the averaging of lines 197-215.  `.error` is an exception
escaping the call. -/
def get_experiment_data (entries : List (String × ℕ × ℕ)) (runs : List String)
    (drugs : List (String × String)) (dps : List DataPoint) (normalize : Bool) :
    Except String (List ((String × String × String) × List ((ℕ × ℕ) × ℚ))) := do
  let rows := dps.map rowOf
  let ref ←
    if normalize then do
      let pr ← pbs_rtt_in_runs entries rows
      let common := (pr.filter fun c => sameSet c.2 runs).map (·.1)
      match common with
      | [] => pure (none : Option (ℕ × ℕ))
      | c :: _ => pure (some c)
    else pure (none : Option (ℕ × ℕ))
  match ref with
  | some npos => do
    let factors ← run_factors entries rows runs npos
    let global := mean (factors.map (·.2))
    pure (averaged_data entries drugs (normFactor true factors global) dps)
  | none => pure (averaged_data entries drugs (normFactor false [] 0) dps)

/-- `sorted(set(xs))` for natural numbers. -/
def sortedDedup (xs : List ℕ) : List ℕ :=
  (List.range (xs.foldr max 0 + 1)).filter (fun x => x ∈ xs)

/-- `pbs_values` (line 252). -/
def pbs_values (ps : List (ℕ × ℕ)) : List ℕ := sortedDedup (ps.map Prod.fst)

/-- `rtt_values` (line 253). -/
def rtt_values (ps : List (ℕ × ℕ)) : List ℕ := sortedDedup (ps.map Prod.snd)

/-- The dense matrix of `create_heatmaps` lines 256-262 for one key:
`np.full(..., np.nan)` then one cell per present coordinate; the `np.nan`
"no data" marker is embedded as `none`. -/
def matrixFor (entries : List (String × ℕ × ℕ)) (drugs : List (String × String))
    (factor : String → ℚ) (dps : List DataPoint)
    (key : String × String × String) : List (List (Option ℚ)) :=
  let ps := keyPositions entries drugs dps key
  (pbs_values ps).map fun p =>
    (rtt_values ps).map fun r => avgAt entries drugs factor dps key (p, r)

/-!
## Concrete fixtures -/

/-- The §8 example batch: categories catch-all/prime-edited/scaffold with
(unmodified, modified, discarded) = (80,10,10)/(5,3,2)/(2,1,7). -/
def exRows : List Row :=
  [⟨"Edited", 80, 10, 10⟩, ⟨"Prime-edited", 5, 3, 2⟩,
   ⟨"Scaffold-incorporated", 2, 1, 7⟩]

/-- The metrics of `exRows`: 100*5/120, 100*3/120, 100*1/120. -/
def exMetrics : BatchMetrics := ⟨.fin (25/6), .fin (5/2), .fin (5/6)⟩

/-- The partial batch record computed from `exRows` for a name parsing to
(pbs, rtt, replicate) = (5, 10, 2) with no drug code. -/
def exPB : PartialBatch := ⟨5, 10, 2, .fin (25/6), .fin (5/2), .fin (5/6), none⟩

/-- A structurally valid batch whose three rows all carry zero counts. -/
def zeroRows : List Row :=
  [⟨"Edited", 0, 0, 0⟩, ⟨"Prime-edited", 0, 0, 0⟩,
   ⟨"Scaffold-incorporated", 0, 0, 0⟩]

/-- A batch with only two rows (structurally invalid). -/
def badRows : List Row := [⟨"Edited", 1, 2, 3⟩, ⟨"Prime-edited", 4, 5, 6⟩]

/-- Entry table for the two-run normalization scenario: the single design
coordinate (7,7). -/
def c2Entries : List (String × ℕ × ℕ) := [("E77", 7, 7)]

/-- Two runs. -/
def c2Runs : List String := ["run1", "run2"]

/-- Drug table holding only the reserved "no treatment" row. -/
def c2Drugs : List (String × String) := [(noneDrugId, "None")]

/-- One measurement per run at the shared coordinate (7,7), with
`correct_edits` 40 in run 1 and 50 in run 2 (run factors 40 and 50). -/
def c2Dps : List DataPoint :=
  [⟨"E77", 40, 4, 2, "PE2", 1, "run1", noneDrugId⟩,
   ⟨"E77", 50, 5, 3, "PE2", 1, "run2", noneDrugId⟩]

/-- Entry table for the no-common-coordinate scenario: two coordinates. -/
def c5Entries : List (String × ℕ × ℕ) := [("E11", 1, 1), ("E22", 2, 2)]

/-- Each run measured a different coordinate, so no coordinate's run-set
covers both runs. -/
def c5Dps : List DataPoint :=
  [⟨"E11", 40, 4, 2, "PE2", 1, "run1", noneDrugId⟩,
   ⟨"E22", 50, 5, 3, "PE2", 1, "run2", noneDrugId⟩]

/-- Entry table for the aggregation scenario: coordinates (5,10), (6,20). -/
def c7Entries : List (String × ℕ × ℕ) := [("E510", 5, 10), ("E620", 6, 20)]

/-- Three replicates with values 10, 12, 14 at coordinate (5,10) and one
measurement with value 99 at (6,20), all under one key. -/
def c7Dps : List DataPoint :=
  [⟨"E510", 10, 1, 1, "PE2", 1, "runA", noneDrugId⟩,
   ⟨"E510", 12, 2, 2, "PE2", 2, "runA", noneDrugId⟩,
   ⟨"E510", 14, 3, 3, "PE2", 3, "runA", noneDrugId⟩,
   ⟨"E620", 99, 9, 9, "PE2", 1, "runA", noneDrugId⟩]

/-- The aggregation key of the scenario. -/
def c7Key : String × String × String := ("PE2", "None", "correct_edits")

/-- The identity factor (normalization disabled). -/
def factor1 : String → ℚ := fun _ => 1

/-- Decidable presence of a trailing `_Rep<int>`/`_rep<int>` suffix. -/
def hasRepSuffix (s : String) : Bool :=
  let r := s.data.reverse
  let ds := r.takeWhile isDigitC
  !ds.isEmpty &&
    (['p', 'e', 'R', '_'].isPrefixOf (r.drop ds.length) ||
     ['p', 'e', 'r', '_'].isPrefixOf (r.drop ds.length))

/-- The name shape quantified over by the claim about non-alphabetic
treatment segments: letters/underscores, a `PE`-prefixed reagent of word
characters, `_P<int>R<int>_`, and a final segment containing a character
outside `[a-zA-Z]`, with no trailing `_Rep<int>` suffix. -/
def c10Shape (s : String) : Prop :=
  ∃ pre reag a b t : String,
    pre ≠ "" ∧ pre.data.all isAlphaUnd ∧
    reag ≠ "" ∧ reag.data.all isWordC ∧
    a ≠ "" ∧ a.data.all isDigitC ∧
    b ≠ "" ∧ b.data.all isDigitC ∧
    t ≠ "" ∧ (∃ c ∈ t.data, ¬ isAlphaC c) ∧
    hasRepSuffix s = false ∧
    s = pre ++ "PE" ++ reag ++ "_P" ++ a ++ "R" ++ b ++ "_" ++ t

/-!
## Theorems -/

/-- **C6.**  The Identifier Parser on the literal names of §8:
`'XPE2_P5_R10_Rep2'` → (PE2, 5, 10, 2, no treatment) via the first
template; `'X_P5_R10_Rep2'` → (no reagent, 5, 10, 2, no treatment) via the
third; `'X_PE2_P5R10_drugA'` → (PE2, 5, 10, 1, drugA) with the replicate
defaulted to 1 under the no-rep-suffix template; and `'X_PE2_P5R10_ctrl'`
parses with treatment code `'ctrl'`; in each case the first matching
template in the fixed `if`/`elif` priority order decides the result. -/
theorem C6_parser_literal_cases :
    extract_batch_info "XPE2_P5_R10_Rep2" =
      .ok ⟨some "PE2", some 5, some 10, some 2, none⟩ ∧
    extract_batch_info "X_P5_R10_Rep2" =
      .ok ⟨none, some 5, some 10, some 2, none⟩ ∧
    extract_batch_info "X_PE2_P5R10_drugA" =
      .ok ⟨some "PE2", some 5, some 10, some 1, some "drugA"⟩ ∧
    extract_batch_info "X_PE2_P5R10_ctrl" =
      .ok ⟨some "PE2", some 5, some 10, some 1, some "ctrl"⟩ := by
  refine ⟨?_, ?_, ?_, ?_⟩ <;> decide

/-- **C10 (counterexample).**  A name of the claimed shape — prefix `X_`,
reagent `PE2`, coordinates `_P5R10_`, final segment `a_Rep2x` containing
the non-alphabetic characters `_` and `2`, and no trailing `_Rep<int>`
suffix — does *not* return the failure tuple: template 5
(`pattern_drug_rep`) matches it (treatment `a`, rep suffix embedded in the
final segment), and its branch then raises `ValueError` on
`int(group(4))`. -/
theorem C10_counterexample :
    c10Shape "X_PE2_P5R10_a_Rep2x" ∧
    extract_batch_info "X_PE2_P5R10_a_Rep2x" ≠
      .ok ⟨none, none, none, none, none⟩ := by
  constructor
  · refine ⟨"X_", "2", "5", "10", "a_Rep2x", ?_⟩
    refine ⟨by decide, by decide, by decide, by decide, by decide, by decide,
      by decide, by decide, by decide, ⟨'_', by decide, by decide⟩, by decide, ?_⟩
    decide
  · decide

/-- **C10 (amended).**  The claim's own example name
`'X_PE2_P5R10_drug2'` (final treatment segment `drug2` with the
non-alphabetic character `2`, no trailing `_Rep<int>` suffix) matches none
of the six templates, and `extract_batch_info` returns the failure tuple
`(None, None, None, None, None)`.  The universal version over all names of
that shape is false, because the final segment may itself embed a
`_Rep<int>` fragment, which template 5 matches (see the counterexample). -/
theorem C10_amended_drug2_fails :
    extract_batch_info "X_PE2_P5R10_drug2" =
      .ok ⟨none, none, none, none, none⟩ := by
  decide

/-- **C2 (code bug).**  With normalization requested on the two-run
scenario whose run factors at the shared coordinate (7,7) would be 40 and
50, `get_experiment_data` does not rescale anything: the
reference-coordinate scan at line 158 unpacks each 8-column
`data_points` row into seven targets and raises
`ValueError: too many values to unpack` on the first row. -/
theorem C2_normalization_raises :
    get_experiment_data c2Entries c2Runs c2Drugs c2Dps true =
      .error errUnpack7 := rfl

/-- **C5 (code bug).**  With normalization requested but no coordinate
shared by both runs, `get_experiment_data` never reaches the
no-common-coordinate fallback of lines 168-170: the scan at line 158
raises `ValueError` on the first 8-column row, instead of disabling
normalization and passing raw values through. -/
theorem C5_no_common_ref_raises :
    get_experiment_data c5Entries c2Runs c2Drugs c5Dps true =
      .error errUnpack7 := rfl

/-- Literal amplicon comparisons used to evaluate the row filters. -/
theorem beq_edited_pe : ("Edited" == "Prime-edited") = false := by decide

theorem beq_scaffold_pe : ("Scaffold-incorporated" == "Prime-edited") = false := by decide

theorem beq_pe_pe : ("Prime-edited" == "Prime-edited") = true := by decide

theorem beq_edited_scaffold : ("Edited" == "Scaffold-incorporated") = false := by decide

theorem beq_pe_scaffold : ("Prime-edited" == "Scaffold-incorporated") = false := by decide

theorem beq_scaffold_scaffold :
    ("Scaffold-incorporated" == "Scaffold-incorporated") = true := by decide

/-- Summing the three count columns separately and adding the sums equals
summing the per-row totals. -/
theorem totalReads_eq_sum (l : List Row) :
    totalReads l = (l.map (fun r => r.unmodified + r.modified + r.discarded)).sum := by
  induction l with
  | nil => rfl
  | cons r l ih =>
    simp only [totalReads, List.map_cons, List.sum_cons] at ih ⊢
    omega

/-- A batch that produced metrics has exactly 3 rows. -/
theorem length_of_computeMetrics_some {rows : List Row} {m : BatchMetrics}
    (h : computeMetrics rows = some m) : rows.length = 3 := by
  by_contra h3
  unfold computeMetrics at h
  rw [if_pos h3] at h
  exact Option.noConfusion h

/-- Evaluation of `computeMetrics` on a structurally valid batch. -/
theorem computeMetrics_valid_eq (rows : List Row) (pe sc : Row)
    (h3 : rows.length = 3)
    (hpe : rows.filter (fun r => r.amplicon == "Prime-edited") = [pe])
    (hsc : rows.filter (fun r => r.amplicon == "Scaffold-incorporated") = [sc]) :
    computeMetrics rows =
      some ⟨npMul100 (npDivNat pe.unmodified (totalReads rows)),
            npMul100 (npDivNat pe.modified (totalReads rows)),
            npMul100 (npDivNat sc.modified (totalReads rows))⟩ := by
  unfold computeMetrics
  rw [if_neg (by omega : ¬ rows.length ≠ 3), hpe, hsc]

/-- **C1.**  For every batch passing structural validation (with `pe` its
unique prime-edited row and `sc` its unique scaffold-incorporated row, and
a non-zero total), the computed total is the sum of
unmodified + modified + discarded over the rows, and
`correct_pct = 100 * pe.unmodified / total`,
`incorrect_pct = 100 * pe.modified / total`,
`scaffold_pct = 100 * sc.modified / total`. -/
theorem C1_pct_formulas (rows : List Row) (m : BatchMetrics) (pe sc : Row)
    (hm : computeMetrics rows = some m)
    (hpe : rows.filter (fun r => r.amplicon == "Prime-edited") = [pe])
    (hsc : rows.filter (fun r => r.amplicon == "Scaffold-incorporated") = [sc])
    (ht : totalReads rows ≠ 0) :
    totalReads rows = (rows.map (fun r => r.unmodified + r.modified + r.discarded)).sum ∧
    m.correct_edits = .fin (100 * (pe.unmodified : ℚ) / (totalReads rows : ℚ)) ∧
    m.incorrect_edits = .fin (100 * (pe.modified : ℚ) / (totalReads rows : ℚ)) ∧
    m.scaffold_incorporated = .fin (100 * (sc.modified : ℚ) / (totalReads rows : ℚ)) := by
  have h3 := length_of_computeMetrics_some hm
  rw [computeMetrics_valid_eq rows pe sc h3 hpe hsc] at hm
  injection hm with hm
  subst hm
  refine ⟨totalReads_eq_sum rows, ?_, ?_, ?_⟩ <;>
  · show npMul100 (npDivNat _ (totalReads rows)) = _
    simp only [npDivNat, npMul100, if_neg ht, NpVal.fin.injEq]
    ring

/-- **C1 witness.**  The §8 instance: counts (80,10,10)/(5,3,2)/(2,1,7)
give total 120 and percentages 100*5/120, 100*3/120, 100*1/120. -/
theorem C1_pct_formulas_witness :
    computeMetrics exRows = some exMetrics ∧
    totalReads exRows = 120 ∧
    exMetrics.correct_edits = .fin (100 * (5 : ℚ) / 120) ∧
    exMetrics.incorrect_edits = .fin (100 * (3 : ℚ) / 120) ∧
    exMetrics.scaffold_incorporated = .fin (100 * (1 : ℚ) / 120) := by
  have hm : computeMetrics exRows = some exMetrics := by
    norm_num [computeMetrics, exRows, exMetrics, totalReads, npDivNat, npMul100,
      List.filter, beq_edited_pe, beq_scaffold_pe, beq_pe_pe, beq_edited_scaffold,
      beq_pe_scaffold, beq_scaffold_scaffold]
  have ht : totalReads exRows = 120 := by decide
  have h := C1_pct_formulas exRows exMetrics ⟨"Prime-edited", 5, 3, 2⟩
    ⟨"Scaffold-incorporated", 2, 1, 7⟩ hm (by decide) (by decide) (by decide)
  refine ⟨hm, ht, ?_, ?_, ?_⟩
  · have h2 := h.2.1; rw [ht] at h2; norm_num at h2 ⊢; exact h2
  · have h2 := h.2.2.1; rw [ht] at h2; norm_num at h2 ⊢; exact h2
  · have h2 := h.2.2.2; rw [ht] at h2; norm_num at h2 ⊢; exact h2

/-- **C3 (counterexample).**  A structurally valid batch whose counts are
all zero is *not* skipped: `process_data` computes its percentages anyway
(numpy turns `0/0` into `nan`) and the batch yields a measurement record,
contrary to the claimed skip-with-warning. -/
theorem C3_counterexample :
    computeMetrics zeroRows ≠ none ∧
    process_data [("XPE2_P5_R10_Rep1", zeroRows)] "" (fun _ => "") =
      .ok [("XPE2_P5_R10_Rep1", ⟨"PE2", 5, 10, 1, .nan, .nan, .nan, none⟩)] := by
  constructor
  · decide
  · decide

/-- **C3 (amended).**  A structurally valid batch whose three rows'
counts sum to zero is not skipped: all its counts are zero, numpy
division yields `nan` for every percentage, and the batch produces a
metrics record (processing continues; a zero total is never fatal). -/
theorem C3_amended_zero_total (rows : List Row) (pe sc : Row)
    (h3 : rows.length = 3)
    (hpe : rows.filter (fun r => r.amplicon == "Prime-edited") = [pe])
    (hsc : rows.filter (fun r => r.amplicon == "Scaffold-incorporated") = [sc])
    (ht : totalReads rows = 0) :
    computeMetrics rows = some ⟨.nan, .nan, .nan⟩ := by
  have hpem : pe ∈ rows :=
    List.mem_of_mem_filter (by rw [hpe]; exact List.mem_singleton_self pe)
  have hscm : sc ∈ rows :=
    List.mem_of_mem_filter (by rw [hsc]; exact List.mem_singleton_self sc)
  have hu : pe.unmodified = 0 := by
    have h1 : pe.unmodified ≤ (rows.map (·.unmodified)).sum :=
      List.single_le_sum (fun x _ => Nat.zero_le x) _
        (List.mem_map_of_mem _ hpem)
    unfold totalReads at ht
    omega
  have hmo : pe.modified = 0 := by
    have h1 : pe.modified ≤ (rows.map (·.modified)).sum :=
      List.single_le_sum (fun x _ => Nat.zero_le x) _
        (List.mem_map_of_mem _ hpem)
    unfold totalReads at ht
    omega
  have hsm : sc.modified = 0 := by
    have h1 : sc.modified ≤ (rows.map (·.modified)).sum :=
      List.single_le_sum (fun x _ => Nat.zero_le x) _
        (List.mem_map_of_mem _ hscm)
    unfold totalReads at ht
    omega
  rw [computeMetrics_valid_eq rows pe sc h3 hpe hsc, hu, hmo, hsm, ht]
  rfl

/-- **C3 witness.**  The all-zero batch instantiates the amended claim. -/
theorem C3_amended_zero_total_witness :
    totalReads zeroRows = 0 ∧ computeMetrics zeroRows = some ⟨.nan, .nan, .nan⟩ :=
  ⟨by decide,
   C3_amended_zero_total zeroRows ⟨"Prime-edited", 0, 0, 0⟩
     ⟨"Scaffold-incorporated", 0, 0, 0⟩ (by decide) (by decide) (by decide)
     (by decide)⟩

/-- A batch with a row count other than 3 produces no metrics. -/
theorem computeMetrics_none_of_len {rows : List Row} (h : rows.length ≠ 3) :
    computeMetrics rows = none := by
  unfold computeMetrics
  rw [if_pos h]

/-- A batch without exactly one prime-edited row produces no metrics. -/
theorem computeMetrics_none_of_pe {rows : List Row}
    (h : (rows.filter (fun r => r.amplicon == "Prime-edited")).length ≠ 1) :
    computeMetrics rows = none := by
  unfold computeMetrics
  split
  · rfl
  · rcases hf : rows.filter (fun r => r.amplicon == "Prime-edited") with _ | ⟨a, _ | ⟨b, l⟩⟩
    · rw [hf]
    · exact absurd (by rw [hf]; rfl) h
    · rw [hf]

/-- A batch without exactly one scaffold-incorporated row produces no
metrics. -/
theorem computeMetrics_none_of_sc {rows : List Row}
    (h : (rows.filter (fun r => r.amplicon == "Scaffold-incorporated")).length ≠ 1) :
    computeMetrics rows = none := by
  unfold computeMetrics
  split
  · rfl
  · rcases hf : rows.filter (fun r => r.amplicon == "Prime-edited") with _ | ⟨a, _ | ⟨b, l⟩⟩
    · rw [hf]
    · rw [hf]
      rcases hg : rows.filter (fun r => r.amplicon == "Scaffold-incorporated") with _ | ⟨c, _ | ⟨d, l'⟩⟩
      · rw [hg]
      · exact absurd (by rw [hg]; rfl) h
      · rw [hg]
    · rw [hf]

/-- The three amplicon filters partition the rows of a batch. -/
theorem length_filter_partition (rows : List Row) :
    rows.length =
      (rows.filter (fun r => r.amplicon == "Prime-edited")).length +
      (rows.filter (fun r => r.amplicon == "Scaffold-incorporated")).length +
      (rows.filter (fun r => !(r.amplicon == "Prime-edited") &&
        !(r.amplicon == "Scaffold-incorporated"))).length := by
  induction rows with
  | nil => rfl
  | cons r l ih =>
    by_cases h1 : r.amplicon = "Prime-edited" <;>
      by_cases h2 : r.amplicon = "Scaffold-incorporated"
    · rw [h1] at h2; exact absurd h2 (by decide)
    · have b1 : (r.amplicon == "Prime-edited") = true := by rw [h1]; decide
      have b2 : (r.amplicon == "Scaffold-incorporated") = false := by rw [h1]; decide
      simp [List.filter_cons, b1, b2]
      omega
    · have b1 : (r.amplicon == "Prime-edited") = false := beq_eq_false_iff_ne.mpr h1
      have b2 : (r.amplicon == "Scaffold-incorporated") = true := by rw [h2]; decide
      simp [List.filter_cons, b1, b2]
      omega
    · have b1 : (r.amplicon == "Prime-edited") = false := beq_eq_false_iff_ne.mpr h1
      have b2 : (r.amplicon == "Scaffold-incorporated") = false := beq_eq_false_iff_ne.mpr h2
      simp [List.filter_cons, b1, b2]
      omega

/-- Any violation of the structural contract (3 rows, one row per
category) yields no metrics. -/
theorem computeMetrics_none_of_structural {rows : List Row}
    (hbad : rows.length ≠ 3 ∨
      (rows.filter (fun r => r.amplicon == "Prime-edited")).length ≠ 1 ∨
      (rows.filter (fun r => r.amplicon == "Scaffold-incorporated")).length ≠ 1 ∨
      (rows.filter (fun r => !(r.amplicon == "Prime-edited") &&
        !(r.amplicon == "Scaffold-incorporated"))).length ≠ 1) :
    computeMetrics rows = none := by
  rcases hbad with h | h | h | h
  · exact computeMetrics_none_of_len h
  · exact computeMetrics_none_of_pe h
  · exact computeMetrics_none_of_sc h
  · by_cases h3 : rows.length = 3
    · by_cases hp : (rows.filter (fun r => r.amplicon == "Prime-edited")).length = 1
      · by_cases hs : (rows.filter (fun r => r.amplicon == "Scaffold-incorporated")).length = 1
        · exact absurd (by have := length_filter_partition rows; omega) h
        · exact computeMetrics_none_of_sc hs
      · exact computeMetrics_none_of_pe hp
    · exact computeMetrics_none_of_len h3

/-- One-step unfolding of the batch loop. -/
theorem stepAll_nil : stepAll [] = .ok [] := rfl

/-- One-step unfolding of the batch loop. -/
theorem stepAll_cons (a : String × List Row) (l : List (String × List Row)) :
    stepAll (a :: l) =
      (do
        let r ← stepBatch a
        let rest ← stepAll l
        match r with
        | none => pure rest
        | some x => pure ((a.1, x) :: rest)) := rfl

/-- A skipped batch is invisible to the rest of the loop. -/
theorem stepAll_skip (l1 l2 : List (String × List Row)) (b : String × List Row)
    (hb : stepBatch b = .ok none) :
    stepAll (l1 ++ b :: l2) = stepAll (l1 ++ l2) := by
  induction l1 with
  | nil =>
    rw [List.nil_append, stepAll_cons, hb]
    cases h : stepAll l2 <;> simp [h, Except.bind, Bind.bind, pure, Except.pure]
  | cons a l1 ih =>
    rw [List.cons_append, List.cons_append, stepAll_cons, stepAll_cons, ih]

/-- Every entry of a completed loop carries the name of an input batch. -/
theorem stepAll_names (l : List (String × List Row))
    (st : List (String × Option String × PartialBatch))
    (h : stepAll l = .ok st) : ∀ x ∈ st, x.1 ∈ l.map Prod.fst := by
  induction l generalizing st with
  | nil =>
    rw [stepAll_nil] at h
    injection h with h
    subst h
    intro x hx
    exact absurd hx (List.not_mem_nil x)
  | cons a l ih =>
    rw [stepAll_cons] at h
    cases ha : stepBatch a with
    | error e => rw [ha] at h; exact absurd h (by simp [Bind.bind, Except.bind])
    | ok r =>
      rw [ha] at h
      cases hl : stepAll l with
      | error e => rw [hl] at h; exact absurd h (by simp [Bind.bind, Except.bind])
      | ok rest =>
        rw [hl] at h
        cases r with
        | none =>
          simp only [Bind.bind, Except.bind, pure, Except.pure] at h
          injection h with h
          subst h
          intro x hx
          exact List.mem_cons_of_mem _ (ih rest hl x hx)
        | some y =>
          simp only [Bind.bind, Except.bind, pure, Except.pure] at h
          injection h with h
          subst h
          intro x hx
          rcases List.mem_cons.mp hx with hx | hx
          · subst hx; exact List.mem_cons_self _ _
          · exact List.mem_cons_of_mem _ (ih rest hl x hx)

/-- Every entry of the final mapping carries the name of a loop entry. -/
theorem resolveMissing_names (resp : String) (per : String → String)
    (st : List (String × Option String × PartialBatch)) :
    ∀ x ∈ resolveMissing resp per st, x.1 ∈ st.map Prod.fst := by
  intro x hx
  unfold resolveMissing at hx
  rcases List.mem_append.mp hx with h | h
  · obtain ⟨y, hy, he⟩ := List.mem_filterMap.mp h
    cases hy21 : y.2.1 with
    | none => rw [hy21] at he; exact absurd he (by simp)
    | some pe =>
      rw [hy21] at he
      injection he with he
      subst he
      exact List.mem_map_of_mem Prod.fst hy
  · split at h <;>
    · obtain ⟨y, hy, he⟩ := List.mem_map.mp h
      obtain ⟨z, hz, hze⟩ := List.mem_filterMap.mp hy
      cases hz21 : z.2.1 with
      | none =>
        rw [hz21] at hze
        injection hze with hze
        subst hze
        subst he
        exact List.mem_map_of_mem Prod.fst hz
      | some pe => rw [hz21] at hze; exact absurd hze (by simp)

/-- **C4.**  A batch group with a row count other than 3, or without
exactly one row of each required category (one catch-all edited row, one
`'Prime-edited'` row, one `'Scaffold-incorporated'` row), is skipped: the
output of `process_data` is exactly the output on the remaining batches,
and no record is produced under the skipped batch's name. -/
theorem C4_structural_mismatch (pre post : List (String × List Row))
    (name : String) (rows : List Row) (resp : String) (per : String → String)
    (hbad : rows.length ≠ 3 ∨
      (rows.filter (fun r => r.amplicon == "Prime-edited")).length ≠ 1 ∨
      (rows.filter (fun r => r.amplicon == "Scaffold-incorporated")).length ≠ 1 ∨
      (rows.filter (fun r => !(r.amplicon == "Prime-edited") &&
        !(r.amplicon == "Scaffold-incorporated"))).length ≠ 1)
    (hname : name ∉ (pre ++ post).map Prod.fst) :
    process_data (pre ++ (name, rows) :: post) resp per =
      process_data (pre ++ post) resp per ∧
    ∀ out, process_data (pre ++ (name, rows) :: post) resp per = .ok out →
      name ∉ out.map Prod.fst := by
  have hb : stepBatch (name, rows) = .ok none := by
    simp [stepBatch, computeMetrics_none_of_structural hbad]
  have heq : process_data (pre ++ (name, rows) :: post) resp per =
      process_data (pre ++ post) resp per := by
    unfold process_data
    rw [stepAll_skip pre post (name, rows) hb]
  refine ⟨heq, ?_⟩
  intro out hout hmem
  rw [heq] at hout
  unfold process_data at hout
  cases hst : stepAll (pre ++ post) with
  | error e => rw [hst] at hout; exact absurd hout (by simp [Bind.bind, Except.bind])
  | ok st =>
    rw [hst] at hout
    simp only [Bind.bind, Except.bind, pure, Except.pure] at hout
    injection hout with hout
    subst hout
    obtain ⟨x, hx, hxn⟩ := List.mem_map.mp hmem
    have h1 : x.1 ∈ st.map Prod.fst := resolveMissing_names resp per st x hx
    obtain ⟨y, hy, hyn⟩ := List.mem_map.mp h1
    have h2 : y.1 ∈ (pre ++ post).map Prod.fst := stepAll_names (pre ++ post) st hst y hy
    rw [hyn, hxn] at h2
    exact hname h2

/-- **C4 witness.**  A two-row batch is skipped and leaves no record. -/
theorem C4_structural_mismatch_witness :
    process_data [("BadBatch", badRows)] "x" (fun _ => "") =
      process_data [] "x" (fun _ => "") ∧
    ∀ out, process_data [("BadBatch", badRows)] "x" (fun _ => "") = .ok out →
      "BadBatch" ∉ out.map Prod.fst := by
  have h := C4_structural_mismatch [] [] "BadBatch" badRows "x" (fun _ => "")
    (Or.inl (by decide)) (by decide)
  simpa using h

/-- **C8.**  For every batch record built by `process_data`, a parsed
treatment code equal to `'ctrl'` case-insensitively is normalized to the
no-treatment value (`None`), an absent code stays `None`, and every other
spelling is stored verbatim as a distinct treatment; `get_or_create_drug`
maps the `None` code to the reserved "no treatment" drug id. -/
theorem C8_ctrl_normalization (name : String) (rows : List Row)
    (pe? : Option String) (pb : PartialBatch) (info : BatchInfo)
    (h : stepBatch (name, rows) = .ok (some (pe?, pb)))
    (hinfo : extract_batch_info name = .ok info) :
    (∀ s, info.drug_code = some s → lower s = "ctrl" → pb.drug_code = none) ∧
    (∀ s, info.drug_code = some s → lower s ≠ "ctrl" → pb.drug_code = some s) ∧
    (info.drug_code = none → pb.drug_code = none) ∧
    (∀ sel : String → String, get_or_create_drug sel none = noneDrugId) := by
  unfold stepBatch at h
  cases hcm : computeMetrics rows with
  | none => rw [hcm] at h; exact absurd h (by simp)
  | some m =>
    rw [hcm, hinfo] at h
    simp only [Bind.bind, Except.bind] at h
    rcases hp : info.pbs with _ | pbs <;> rw [hp] at h
    · rcases hq : info.rtt with _ | rtt <;> rcases hh : info.replicate with _ | rep <;>
        simp [hq, hh, pure, Except.pure] at h
    · rcases hq : info.rtt with _ | rtt <;> rw [hq] at h
      · rcases hh : info.replicate with _ | rep <;> simp [hh, pure, Except.pure] at h
      · rcases hh : info.replicate with _ | rep <;> rw [hh] at h
        · simp [pure, Except.pure] at h
        · simp only [pure, Except.pure] at h
          injection h with h
          injection h with h
          rw [Prod.mk.injEq] at h
          obtain ⟨he, hpb⟩ := h
          subst hpb
          refine ⟨?_, ?_, ?_, fun sel => rfl⟩
          · intro s hs hc
            show (match info.drug_code with
              | some s => if lower s = "ctrl" then none else some s
              | none => none) = none
            simp only [hs]
            rw [if_pos hc]
          · intro s hs hc
            show (match info.drug_code with
              | some s => if lower s = "ctrl" then none else some s
              | none => none) = some s
            simp only [hs]
            rw [if_neg hc]
          · intro hs
            show (match info.drug_code with
              | some s => if lower s = "ctrl" then none else some s
              | none => none) = none
            simp only [hs]

/-- **C8 witness.**  The name `'X_PE2_P5R10_ctrl'`: its parsed `'ctrl'`
code is stored as the no-treatment value, and the `None` code maps to the
reserved drug id. -/
theorem C8_ctrl_normalization_witness :
    (⟨5, 10, 1, .fin (25/6), .fin (5/2), .fin (5/6), none⟩ : PartialBatch).drug_code = none ∧
    get_or_create_drug (fun s => s) none = noneDrugId := by
  have hx : extract_batch_info "X_PE2_P5R10_ctrl" =
      .ok ⟨some "PE2", some 5, some 10, some 1, some "ctrl"⟩ := by decide
  have hs : stepBatch ("X_PE2_P5R10_ctrl", exRows) =
      .ok (some (some "PE2", ⟨5, 10, 1, .fin (25/6), .fin (5/2), .fin (5/6), none⟩)) := by
    norm_num [stepBatch, hx, computeMetrics, exRows, totalReads, npDivNat, npMul100,
      List.filter, beq_edited_pe, beq_scaffold_pe, beq_pe_pe, beq_edited_scaffold,
      beq_pe_scaffold, beq_scaffold_scaffold, Bind.bind, Except.bind, pure, Except.pure,
      show lower "ctrl" = "ctrl" from by decide]
  have h := C8_ctrl_normalization "X_PE2_P5R10_ctrl" exRows (some "PE2")
    ⟨5, 10, 1, .fin (25/6), .fin (5/2), .fin (5/6), none⟩
    ⟨some "PE2", some 5, some 10, some 1, some "ctrl"⟩ hs hx
  exact ⟨h.1 "ctrl" rfl (by decide), h.2.2.2 (fun s => s)⟩

/-- A batch handed to the loop with a parsed record lands in the loop's
output. -/
theorem stepAll_mem (l1 l2 : List (String × List Row)) (b : String × List Row)
    (x : Option String × PartialBatch)
    (st : List (String × Option String × PartialBatch))
    (hb : stepBatch b = .ok (some x))
    (h : stepAll (l1 ++ b :: l2) = .ok st) : (b.1, x) ∈ st := by
  induction l1 generalizing st with
  | nil =>
    rw [List.nil_append, stepAll_cons, hb] at h
    simp only [Bind.bind, Except.bind] at h
    cases hl : stepAll l2 with
    | error e => rw [hl] at h; exact absurd h (by simp)
    | ok rest =>
      rw [hl] at h
      simp only [pure, Except.pure] at h
      injection h with h
      subst h
      exact List.mem_cons_self _ _
  | cons a l1 ih =>
    rw [List.cons_append, stepAll_cons] at h
    simp only [Bind.bind, Except.bind] at h
    cases ha : stepBatch a with
    | error e => rw [ha] at h; exact absurd h (by simp)
    | ok r =>
      rw [ha] at h
      cases hrest : stepAll (l1 ++ b :: l2) with
      | error e => rw [hrest] at h; exact absurd h (by simp)
      | ok rest =>
        rw [hrest] at h
        have hmem := ih rest hrest
        cases r with
        | none =>
          simp only [pure, Except.pure] at h
          injection h with h
          subst h
          exact hmem
        | some y =>
          simp only [pure, Except.pure] at h
          injection h with h
          subst h
          exact List.mem_cons_of_mem _ hmem

/-- A batch with an unresolved prime editor is assigned the operator's
string and kept. -/
theorem resolveMissing_mem (resp : String) (per : String → String)
    (st : List (String × Option String × PartialBatch)) (n : String)
    (pb : PartialBatch) (h : (n, (none, pb)) ∈ st) :
    (n, withEditor (if lower resp = "different" then per n else resp) pb) ∈
      resolveMissing resp per st := by
  unfold resolveMissing
  apply List.mem_append_right
  by_cases hc : lower resp = "different"
  · rw [if_pos hc, if_pos hc]
    exact List.mem_map.mpr ⟨(n, pb),
      List.mem_filterMap.mpr ⟨(n, (none, pb)), h, rfl⟩, rfl⟩
  · rw [if_neg hc, if_neg hc]
    exact List.mem_map.mpr ⟨(n, pb),
      List.mem_filterMap.mpr ⟨(n, (none, pb)), h, rfl⟩, rfl⟩

/-- **C9 (counterexample).**  When the operator's uniform response is the
empty string — no usable reagent value — the unresolved batch is *not*
excluded: it appears in the returned batch set with the empty string as
its reagent (and would be inserted as a data point downstream). -/
theorem C9_counterexample :
    process_data [("X_P5_R10_Rep2", exRows)] "" (fun _ => "") =
      .ok [("X_P5_R10_Rep2",
        ⟨"", 5, 10, 2, .fin (25/6), .fin (5/2), .fin (5/6), none⟩)] := by
  have hx : extract_batch_info "X_P5_R10_Rep2" =
      .ok ⟨none, some 5, some 10, some 2, none⟩ := by decide
  norm_num [process_data, stepAll, stepBatch, resolveMissing, withEditor, hx,
    computeMetrics, exRows, totalReads, npDivNat, npMul100, List.filter,
    beq_edited_pe, beq_scaffold_pe, beq_pe_pe, beq_edited_scaffold,
    beq_pe_scaffold, beq_scaffold_scaffold, Bind.bind, Except.bind, Functor.map,
    Except.map, pure, Except.pure, List.filterMap_cons, List.filterMap_nil,
    show lower "" ≠ "different" from by decide]

/-- **C9 (amended).**  Every batch whose reagent is unresolved after
parsing is assigned the operator's response verbatim — the single uniform
response, or the per-batch answer when the response is `'different'` —
and is always included in the returned batch set; no batch is excluded for
lack of a usable reagent value (even an empty response is stored as the
reagent, as the counterexample shows). -/
theorem C9_amended_resolution (pre post : List (String × List Row))
    (name : String) (rows : List Row) (pb : PartialBatch) (resp : String)
    (per : String → String)
    (h : stepBatch (name, rows) = .ok (some (none, pb))) :
    ∀ out, process_data (pre ++ (name, rows) :: post) resp per = .ok out →
      (name, withEditor (if lower resp = "different" then per name else resp) pb) ∈ out := by
  intro out hout
  unfold process_data at hout
  cases hst : stepAll (pre ++ (name, rows) :: post) with
  | error e => rw [hst] at hout; exact absurd hout (by simp [Bind.bind, Except.bind])
  | ok st =>
    rw [hst] at hout
    simp only [Bind.bind, Except.bind, pure, Except.pure] at hout
    injection hout with hout
    subst hout
    exact resolveMissing_mem resp per st name pb
      (stepAll_mem pre post (name, rows) (none, pb) st h hst)

/-- **C9 witness.**  The reagent-less name `'X_P5_R10_Rep2'` with uniform
response `'PE3'`: the batch is resolved to reagent `PE3` and appears in
the output. -/
theorem C9_amended_resolution_witness :
    process_data [("X_P5_R10_Rep2", exRows)] "PE3" (fun _ => "") =
      .ok [("X_P5_R10_Rep2", withEditor "PE3" exPB)] ∧
    ("X_P5_R10_Rep2", withEditor "PE3" exPB) ∈
      [("X_P5_R10_Rep2", withEditor "PE3" exPB)] := by
  have hx : extract_batch_info "X_P5_R10_Rep2" =
      .ok ⟨none, some 5, some 10, some 2, none⟩ := by decide
  have hstep : stepBatch ("X_P5_R10_Rep2", exRows) = .ok (some (none, exPB)) := by
    norm_num [stepBatch, hx, computeMetrics, exRows, exPB, totalReads, npDivNat,
      npMul100, List.filter, beq_edited_pe, beq_scaffold_pe, beq_pe_pe,
      beq_edited_scaffold, beq_pe_scaffold, beq_scaffold_scaffold, Bind.bind,
      Except.bind, pure, Except.pure]
  have hpd : process_data [("X_P5_R10_Rep2", exRows)] "PE3" (fun _ => "") =
      .ok [("X_P5_R10_Rep2", withEditor "PE3" exPB)] := by
    unfold process_data
    rw [stepAll_cons, hstep, stepAll_nil]
    simp [resolveMissing, Bind.bind, Except.bind, pure, Except.pure,
      List.filterMap_cons, List.filterMap_nil,
      if_neg (show ¬ lower "PE3" = "different" from by decide)]
  have happ := C9_amended_resolution [] [] "X_P5_R10_Rep2" exRows exPB "PE3"
    (fun _ => "") hstep [("X_P5_R10_Rep2", withEditor "PE3" exPB)]
    (by simpa using hpd)
  refine ⟨hpd, ?_⟩
  rwa [if_neg (show ¬ lower "PE3" = "different" from by decide)] at happ

/-- A coordinate is a key of the per-key dict exactly when its replicate
list is non-empty. -/
theorem mem_keyPositions_iff (entries : List (String × ℕ × ℕ))
    (drugs : List (String × String)) (factor : String → ℚ)
    (dps : List DataPoint) (key : String × String × String) (pos : ℕ × ℕ) :
    pos ∈ keyPositions entries drugs dps key ↔
      heatmapVals entries drugs factor dps key pos ≠ [] := by
  unfold keyPositions heatmapVals
  rw [List.mem_dedup, List.mem_filterMap, Ne, List.filterMap_eq_nil_iff]
  constructor
  · rintro ⟨d, hd, hfd⟩ hall
    have hnd := hall d hd
    cases hl : entries.lookup d.experiment_entry_id with
    | none =>
      rw [hl] at hfd
      exact Option.noConfusion hfd
    | some pr =>
      simp only [hl] at hfd hnd
      split at hfd
      · rename_i hcond
        injection hfd with hfd
        subst hfd
        rw [if_pos ⟨rfl, hcond.1, hcond.2.1⟩] at hnd
        obtain ⟨v, hv⟩ := Option.isSome_iff_exists.mp hcond.2.2
        rw [hv] at hnd
        exact Option.noConfusion hnd
      · exact Option.noConfusion hfd
  · intro hne
    push_neg at hne
    obtain ⟨d, hd, hgd⟩ := hne
    cases hl : entries.lookup d.experiment_entry_id with
    | none =>
      rw [hl] at hgd
      exact absurd rfl hgd
    | some pr =>
      simp only [hl] at hgd
      by_cases hcond : pr = pos ∧ d.prime_editor = key.1 ∧ drugNameOf drugs d = key.2.1
      · cases hm : metricValue d key.2.2 with
        | none =>
          rw [if_pos hcond, hm] at hgd
          exact absurd rfl hgd
        | some v =>
          refine ⟨d, hd, ?_⟩
          simp only [hl]
          rw [if_pos ⟨hcond.2.1, hcond.2.2, by rw [hm]; rfl⟩, hcond.1]
      · rw [if_neg hcond] at hgd
        exact absurd rfl hgd

/-- **C7.**  In the materialized 2-D matrix over the sorted, deduplicated
ascending coordinate axes, the cell at axes values `(p, r)` holds the "no
data" marker (`none`, embedding `np.nan`) exactly when `(p, r)` is absent
from the key's mapping, and otherwise holds the arithmetic mean of the
matching replicate values. -/
theorem C7_aggregation (entries : List (String × ℕ × ℕ))
    (drugs : List (String × String)) (factor : String → ℚ)
    (dps : List DataPoint) (key : String × String × String)
    (i j : ℕ) (row : List (Option ℚ)) (cell : Option ℚ) (p r : ℕ)
    (hrow : (matrixFor entries drugs factor dps key)[i]? = some row)
    (hcell : row[j]? = some cell)
    (hp : (pbs_values (keyPositions entries drugs dps key))[i]? = some p)
    (hr : (rtt_values (keyPositions entries drugs dps key))[j]? = some r) :
    (cell = none ↔ (p, r) ∉ keyPositions entries drugs dps key) ∧
    (∀ vs, heatmapVals entries drugs factor dps key (p, r) = vs → vs ≠ [] →
      cell = some (vs.sum / (vs.length : ℚ))) := by
  have hcell_eq : cell = avgAt entries drugs factor dps key (p, r) := by
    unfold matrixFor at hrow
    rw [List.getElem?_map, hp] at hrow
    simp only [Option.map_some'] at hrow
    injection hrow with hrow
    subst hrow
    rw [List.getElem?_map, hr] at hcell
    simp only [Option.map_some'] at hcell
    injection hcell with hcell
    exact hcell.symm
  subst hcell_eq
  constructor
  · unfold avgAt
    by_cases hv : heatmapVals entries drugs factor dps key (p, r) = []
    · simp [hv, mem_keyPositions_iff entries drugs factor dps key (p, r)]
    · simp [hv, mem_keyPositions_iff entries drugs factor dps key (p, r),
        List.isEmpty_iff]
  · intro vs hvs hne
    unfold avgAt
    rw [hvs, if_neg (by simpa [List.isEmpty_iff] using hne)]
    rfl

/-- **C7 witness.**  Three replicates 10, 12, 14 at coordinate (5,10)
average to 12, and the never-observed cell (5,20) of the materialized
matrix holds the "no data" marker. -/
theorem C7_aggregation_witness :
    ((some (12 : ℚ) : Option ℚ) = none ↔
      (5, 10) ∉ keyPositions c7Entries c2Drugs c7Dps c7Key) ∧
    (∀ vs, heatmapVals c7Entries c2Drugs factor1 c7Dps c7Key (5, 10) = vs →
      vs ≠ [] → (some (12 : ℚ) : Option ℚ) = some (vs.sum / (vs.length : ℚ))) ∧
    ((none : Option ℚ) = none ↔
      (5, 20) ∉ keyPositions c7Entries c2Drugs c7Dps c7Key) := by
  have hvals : heatmapVals c7Entries c2Drugs factor1 c7Dps c7Key (5, 10) =
      [10, 12, 14] := by
    norm_num [heatmapVals, c7Entries, c2Drugs, factor1, c7Dps, c7Key, drugNameOf,
      metricValue, List.filterMap_cons, List.filterMap_nil, List.lookup, noneDrugId,
      show ("E620" == "E510") = false from by decide,
      show ("E510" == "E510") = true from by decide,
      show ("E510" == "E620") = false from by decide,
      show ("E620" == "E620") = true from by decide]
  have hvals2 : heatmapVals c7Entries c2Drugs factor1 c7Dps c7Key (5, 20) = [] := by
    norm_num [heatmapVals, c7Entries, c2Drugs, factor1, c7Dps, c7Key, drugNameOf,
      metricValue, List.filterMap_cons, List.filterMap_nil, List.lookup, noneDrugId,
      show ("E620" == "E510") = false from by decide,
      show ("E510" == "E510") = true from by decide,
      show ("E510" == "E620") = false from by decide,
      show ("E620" == "E620") = true from by decide]
  have hvals3 : heatmapVals c7Entries c2Drugs factor1 c7Dps c7Key (6, 20) =
      [99] := by
    norm_num [heatmapVals, c7Entries, c2Drugs, factor1, c7Dps, c7Key, drugNameOf,
      metricValue, List.filterMap_cons, List.filterMap_nil, List.lookup, noneDrugId,
      show ("E620" == "E510") = false from by decide,
      show ("E510" == "E510") = true from by decide,
      show ("E510" == "E620") = false from by decide,
      show ("E620" == "E620") = true from by decide]
  have havg : avgAt c7Entries c2Drugs factor1 c7Dps c7Key (5, 10) = some 12 := by
    unfold avgAt
    rw [hvals]
    norm_num [mean]
  have havg2 : avgAt c7Entries c2Drugs factor1 c7Dps c7Key (5, 20) = none := by
    unfold avgAt
    rw [hvals2]
    rfl
  have hkp : keyPositions c7Entries c2Drugs c7Dps c7Key = [(5, 10), (6, 20)] := by
    decide
  have hrow : (matrixFor c7Entries c2Drugs factor1 c7Dps c7Key)[0]? =
      some [some 12, none] := by
    unfold matrixFor
    rw [hkp]
    simp only [show pbs_values [(5, 10), (6, 20)] = [5, 6] from by decide,
      show rtt_values [(5, 10), (6, 20)] = [10, 20] from by decide]
    simp [havg, havg2]
  have h1 := C7_aggregation c7Entries c2Drugs factor1 c7Dps c7Key 0 0
    [some 12, none] (some 12) 5 10 hrow (by decide)
    (by rw [hkp]; decide) (by rw [hkp]; decide)
  have h2 := C7_aggregation c7Entries c2Drugs factor1 c7Dps c7Key 0 1
    [some 12, none] none 5 20 hrow (by decide)
    (by rw [hkp]; decide) (by rw [hkp]; decide)
  exact ⟨h1.1, h1.2, h2.1⟩

end PrimeEdit
